import Mathlib

/-!
Shallow embedding of the payment transaction lifecycle engine of the kShopB
backend: the Transaction store (mongoose model `Transaction`, its `pre('save')`
hook and `addStatusUpdate` method), the verification controller
(`enhancedPaymentController.js`), the webhook router (`routes/webhooks.js`) and
the reconciliation / cleanup service (`paymentMonitoring.js`).

External effects (the Razorpay HTTP client and the HMAC-SHA256 primitive) are
passed in as oracle parameters; persistent state is passed explicitly as a
`Store` value.  Money values are rationals (JS numbers without float rounding),
timestamps are naturals (milliseconds since epoch).
-/

namespace KShopB

/-- Transaction status enum of the mongoose `transactionSchema`. -/
inductive Status where
  | initiated
  | pending
  | processing
  | authorized
  | captured
  | success
  | failed
  | cancelled
  | expired
  | disputed
  | refunded
  | partiallyRefunded
deriving DecidableEq, Repr

/-- Terminal states as enumerated by the spec glossary: success, failed,
cancelled, expired, refunded. -/
def Status.isTerminal : Status → Bool
  | .success => true
  | .failed => true
  | .cancelled => true
  | .expired => true
  | .refunded => true
  | _ => false

/-- One entry of the append-only `statusHistory` array (status + reason;
the timestamp and free-form metadata are not needed by any claim). -/
structure StatusEntry where
  status : Status
  reason : String
deriving DecidableEq, Repr

/-- The `fees` sub-document of the transaction schema. -/
structure Fees where
  gatewayFee : ℚ
  serviceTax : ℚ
  totalFee : ℚ
deriving DecidableEq, Repr

/-- Order status enum of `models/Order.js`. -/
inductive OrderStatus where
  | pending
  | confirmed
  | processing
  | shipped
  | delivered
  | cancelled
deriving DecidableEq, Repr

/-- The slice of an Order document the payment engine reads and writes. -/
structure Order where
  id : Nat
  status : OrderStatus
  isPaid : Bool
deriving DecidableEq, Repr

/-- The slice of a Transaction document used by the payment engine. -/
structure Transaction where
  txId : String
  status : Status
  previousStatus : Option Status
  statusHistory : List StatusEntry
  amount : ℚ
  fees : Fees
  netAmount : ℚ
  orderId : Option Nat
  gatewayPaymentId : Option String
  createdAt : Nat
  refundAmt : Option ℚ
deriving DecidableEq, Repr

/-- The `transactionSchema.pre('save')` hook.  `statusModified` is mongoose's
`isModified('status')` flag (true exactly when the status path was assigned a
value different from the stored one since the last save).  When the flag is set
and the status differs from `previousStatus` the hook pushes a history entry
with reason "Status changed" and then overwrites `previousStatus` with
`this.original?.status || this.status`; `this.original` is undefined on a
mongoose document, so this collapses to the (new) current status.  Finally
`netAmount` is recomputed whenever `this.amount` is truthy (nonzero). -/
def preSave (t : Transaction) (statusModified : Bool) : Transaction :=
  let t1 :=
    if statusModified ∧ some t.status ≠ t.previousStatus then
      { t with
        statusHistory := t.statusHistory ++ [⟨t.status, "Status changed"⟩],
        previousStatus := some t.status }
    else t
  if t1.amount ≠ 0 then
    { t1 with netAmount := t1.amount - t1.fees.totalFee }
  else t1

/-- The `transactionSchema.methods.addStatusUpdate` instance method followed by
the `save()` it returns: record the old status in `previousStatus`, overwrite
`status`, push a history entry, then run the pre-save hook (the status path is
modified exactly when the new value differs from the old one). -/
def addStatusUpdate (t : Transaction) (s : Status) (reason : String) : Transaction :=
  let t1 : Transaction :=
    { t with
      previousStatus := some t.status,
      status := s,
      statusHistory := t.statusHistory ++ [⟨s, reason⟩] }
  preSave t1 (decide (s ≠ t.status))

/-- An error surfaced by the Razorpay SDK: an optional HTTP status code and a
message (`error.statusCode` is undefined on pure network errors). -/
structure GatewayError where
  statusCode : Option Nat
  message : String
deriving DecidableEq, Repr

/-- Payment detail object returned by `razorpay.payments.fetch`: amount in
paise, gateway status string, and fee/tax in paise. -/
structure PaymentDetails where
  amount : ℚ
  status : String
  fee : ℚ
  tax : ℚ
deriving DecidableEq, Repr

/-- The `RETRY_CONFIG` constant of `enhancedPaymentController.js`. -/
structure RetryConfig where
  maxAttempts : Nat
  backoffMultiplier : Nat
  initialDelay : Nat
  maxDelay : Nat

/-- Values of `RETRY_CONFIG` in the source: 3 attempts, multiplier 2, initial
delay 1000 ms, cap 10000 ms. -/
def RETRY_CONFIG : RetryConfig :=
  { maxAttempts := 3, backoffMultiplier := 2, initialDelay := 1000, maxDelay := 10000 }

/-- The `calculateRetryDelay` helper:
`min(initialDelay * backoffMultiplier^(attempt-1), maxDelay)`. -/
def calculateRetryDelay (attempt : Nat) : Nat :=
  min (RETRY_CONFIG.initialDelay * RETRY_CONFIG.backoffMultiplier ^ (attempt - 1))
    RETRY_CONFIG.maxDelay

/-- Decides whether `small` occurs at the head of `big` (character by
character), the base step of JS `String.prototype.includes`. -/
def leadsWith : List Char → List Char → Bool
  | [], _ => true
  | _ :: _, [] => false
  | a :: as, b :: bs => a = b && leadsWith as bs

/-- Decides whether `small` occurs anywhere inside `big`
(JS `big.includes(small)`). -/
def containsSub (big small : List Char) : Bool :=
  match big with
  | [] => small.isEmpty
  | _ :: t => leadsWith small big || containsSub t small

/-- JS `str.toLowerCase().includes(w)` on a Lean string. -/
def lowerIncludes (s w : String) : Bool :=
  containsSub (s.data.map Char.toLower) w.data

/-- The `isRetryableError` helper: status code in {429, 500, 502, 503, 504} or
a lower-cased message containing "timeout", "network" or "connection". -/
def isRetryableError (e : GatewayError) : Bool :=
  (match e.statusCode with
   | some c => [429, 500, 502, 503, 504].contains c
   | none => false)
  || ["timeout", "network", "connection"].any (fun w => lowerIncludes e.message w)

/-- The shared retry harness of `createRazorpayOrderWithRetry` and
`fetchPaymentDetailsWithRetry`: try the call for the given attempt number; on
failure, if `attempt < RETRY_CONFIG.maxAttempts` and the error is retryable,
sleep `calculateRetryDelay attempt` and recurse with `attempt + 1`, otherwise
rethrow.  `resp` is the gateway oracle giving each attempt's outcome; the
result carries the list of back-off delays that were slept, in order.  `fuel`
only forces termination and never runs out before the `attempt` guard stops the
recursion. -/
def runRetryAux (resp : Nat → Except GatewayError α) (attempt fuel : Nat) :
    Except GatewayError α × List Nat :=
  match resp attempt with
  | .ok a => (.ok a, [])
  | .error e =>
    match fuel with
    | 0 => (.error e, [])
    | fuel' + 1 =>
      if attempt < RETRY_CONFIG.maxAttempts && isRetryableError e then
        let r := runRetryAux resp (attempt + 1) fuel'
        (r.1, calculateRetryDelay attempt :: r.2)
      else (.error e, [])

/-- A gateway call wrapped in the bounded retry, started at attempt 1 as both
`createRazorpayOrderWithRetry(orderData)` and
`fetchPaymentDetailsWithRetry(paymentId)` do. -/
def runWithRetry (resp : Nat → Except GatewayError α) :
    Except GatewayError α × List Nat :=
  runRetryAux resp 1 RETRY_CONFIG.maxAttempts

/-- Persistent state shared by the three writers: the Transaction collection
and the Order collection. -/
structure Store where
  transactions : List Transaction
  orders : List Order
deriving DecidableEq, Repr

/-- Replacement of a transaction document (matched by `transactionId`) after a
save. -/
def Store.setTx (st : Store) (t : Transaction) : Store :=
  { st with
    transactions := st.transactions.map (fun u => if u.txId = t.txId then t else u) }

/-- Lookup of a transaction document by its `transactionId` field
(`Transaction.findOne({ transactionId })`). -/
def Store.findTx (st : Store) (txId : String) : Option Transaction :=
  st.transactions.find? (fun u => u.txId = txId)

/-- The request body of `POST /payment/verify`. -/
structure VerifyReq where
  razorpayOrderId : String
  razorpayPaymentId : String
  razorpaySignature : String
  transactionId : String
deriving DecidableEq, Repr

/-- Environment of the verification controller: the Razorpay key secret, the
HMAC-SHA256-hex primitive (an oracle for `crypto.createHmac('sha256', k)`), and
the gateway fetch (the already-retried `fetchPaymentDetailsWithRetry`). -/
structure VerifyEnv where
  secret : String
  mac : String → String → String
  fetchPayment : String → Except GatewayError PaymentDetails

/-- Outcome surfaced to the HTTP caller: the created/returned order id on
success, or an error status code and message. -/
inductive VerifyResult where
  | ok (orderId : Nat)
  | err (statusCode : Nat) (msg : String)
deriving DecidableEq, Repr

/-- The `calculateFees` helper: gateway fee and tax arrive in paise and are
divided by 100. -/
def calculateFees (p : PaymentDetails) : Fees :=
  { gatewayFee := p.fee / 100,
    serviceTax := p.tax / 100,
    totalFee := (p.fee + p.tax) / 100 }

/-- Id handed to a freshly inserted Order document: one above every id already
present (a fresh mongo `_id`). -/
def freshOrderId (st : Store) : Nat :=
  (st.orders.map (fun o => o.id)).foldr max 0 + 1

/-- The catch block of `verifyPayment` (lines 287-315): re-find the transaction
by id, mark it `failed` with the thrown error's message if it exists, and
rethrow the error to the HTTP layer. -/
def verifyCatch (st : Store) (txId : String) (statusCode : Nat) (msg : String) :
    Store × VerifyResult :=
  match st.findTx txId with
  | none => (st, .err statusCode msg)
  | some t => (st.setTx (addStatusUpdate t .failed msg), .err statusCode msg)

/-- The `verifyPayment` controller (`enhancedPaymentController.js` lines
164-316).  Control flow is translated branch by branch: the early field
validations throw before the try block (so the catch does not mark anything
failed); every throw inside the try goes through `verifyCatch`.  On full
validation success a new Order (`confirmed`, paid) is inserted, the transaction
is linked to it, fees are computed, and `addStatusUpdate 'success'` saves
everything. -/
def verifyPayment (env : VerifyEnv) (st : Store) (req : VerifyReq) :
    Store × VerifyResult :=
  if req.razorpayOrderId = "" ∨ req.razorpayPaymentId = "" ∨ req.razorpaySignature = "" then
    (st, .err 400 "Missing payment verification data")
  else if req.transactionId = "" then
    (st, .err 400 "Missing order or transaction data")
  else
    match st.findTx req.transactionId with
    | none => verifyCatch st req.transactionId 404 "Transaction not found"
    | some t =>
      let expectedSignature :=
        env.mac env.secret (req.razorpayOrderId ++ "|" ++ req.razorpayPaymentId)
      if expectedSignature ≠ req.razorpaySignature then
        let st1 := st.setTx (addStatusUpdate t .failed "Invalid payment signature")
        verifyCatch st1 req.transactionId 400 "Payment verification failed"
      else
        match env.fetchPayment req.razorpayPaymentId with
        | .error e =>
          verifyCatch st req.transactionId (e.statusCode.getD 500) e.message
        | .ok p =>
          if p.amount ≠ t.amount * 100 then
            verifyCatch st req.transactionId 400 "Payment amount mismatch"
          else if p.status ≠ "captured" then
            verifyCatch st req.transactionId 400 "Payment not captured successfully"
          else
            let newOrder : Order :=
              { id := freshOrderId st, status := .confirmed, isPaid := true }
            let st1 : Store := { st with orders := st.orders ++ [newOrder] }
            let t1 : Transaction :=
              { t with
                orderId := some newOrder.id,
                gatewayPaymentId := some req.razorpayPaymentId,
                fees := calculateFees p }
            let t2 := addStatusUpdate t1 .success "Payment verified and captured"
            (st1.setTx t2, .ok newOrder.id)

/-- Update of an order document by id (used by refund / webhook / cleanup
paths that `Order.findById(...)` then mutate and save). -/
def Store.mapOrder (st : Store) (oid : Nat) (f : Order → Order) : Store :=
  { st with orders := st.orders.map (fun o => if o.id = oid then f o else o) }

/-- Core of the `refundPayment` controller (lines 371-463) after the
transaction was found and the gateway refund call succeeded: the refund amount
is `amount || transaction.amount` (a missing or zero/falsy amount falls back to
the full transaction amount), amounts above the transaction amount are
rejected, the refund sub-record is written, the status becomes `refunded` when
the refund amount equals the transaction amount and `partially_refunded`
otherwise, and the linked order (if any) is cancelled only for full refunds. -/
def refundApply (st : Store) (t : Transaction) (amountArg : Option ℚ) :
    Store × VerifyResult :=
  let refundAmount :=
    match amountArg with
    | none => t.amount
    | some a => if a = 0 then t.amount else a
  if refundAmount > t.amount then
    (st, .err 400 "Refund amount cannot exceed transaction amount")
  else
    let refundStatus : Status :=
      if refundAmount = t.amount then .refunded else .partiallyRefunded
    let t1 : Transaction := { t with refundAmt := some refundAmount }
    let t2 := addStatusUpdate t1 refundStatus "Refund initiated"
    let st1 := st.setTx t2
    let st2 :=
      match t.orderId with
      | some oid =>
        if refundAmount = t.amount then
          st1.mapOrder oid (fun o => { o with status := .cancelled })
        else st1
      | none => st1
    (st2, .ok 0)

/-- JSON values as express's body parser hands them to the webhook route
(restricted to string leaves and objects, which is all the webhook bodies in
the claims use). -/
inductive Json where
  | str (s : String)
  | obj (fields : List (String × Json))

mutual

/-- Serialization as `JSON.stringify` emits it: no whitespace, insertion order
kept. -/
def Json.stringify : Json → String
  | .str s => "\"" ++ s ++ "\""
  | .obj fs => "\x7b" ++ stringifyFields fs ++ "\x7d"

/-- Serialization of the fields of an object, comma separated. -/
def stringifyFields : List (String × Json) → String
  | [] => ""
  | [kv] => "\"" ++ kv.1 ++ "\":" ++ Json.stringify kv.2
  | kv :: rest =>
    "\"" ++ kv.1 ++ "\":" ++ Json.stringify kv.2 ++ "," ++ stringifyFields rest

end

/-- Leading JSON whitespace removal. -/
def skipWs : List Char → List Char
  | c :: t => if c = ' ' ∨ c = '\t' ∨ c = '\n' ∨ c = '\r' then skipWs t else c :: t
  | [] => []

/-- Characters of a quoted string up to (and consuming) the closing quote. -/
def takeStr : List Char → Option (List Char × List Char)
  | [] => none
  | c :: t =>
    if c = '"' then some ([], t)
    else match takeStr t with
      | some (s, r) => some (c :: s, r)
      | none => none

mutual

/-- Recursive-descent reading of one JSON value, modelling the
whitespace-insensitive `JSON.parse` the express body parser applies to the raw
request bytes (restricted to the string/object fragment).  `fuel` bounds the
nesting depth. -/
def parseValue : Nat → List Char → Option (Json × List Char)
  | 0, _ => none
  | fuel + 1, cs =>
    match skipWs cs with
    | '"' :: t =>
      match takeStr t with
      | some (s, r) => some (Json.str ⟨s⟩, r)
      | none => none
    | '\x7b' :: t =>
      match skipWs t with
      | '\x7d' :: r => some (.obj [], r)
      | r => parseMembers fuel r []
    | _ => none

/-- Reading of one or more `"key": value` members of an object, comma
separated, up to the closing brace. -/
def parseMembers : Nat → List Char → List (String × Json) →
    Option (Json × List Char)
  | 0, _, _ => none
  | fuel + 1, cs, acc =>
    match skipWs cs with
    | '"' :: t =>
      match takeStr t with
      | none => none
      | some (k, r1) =>
        match skipWs r1 with
        | ':' :: r2 =>
          match parseValue fuel r2 with
          | none => none
          | some (v, r3) =>
            match skipWs r3 with
            | ',' :: r4 => parseMembers fuel r4 (acc ++ [(⟨k⟩, v)])
            | '\x7d' :: r4 => some (.obj (acc ++ [(⟨k⟩, v)]), r4)
            | _ => none
        | _ => none
    | _ => none

end

/-- Parse a whole request body; the remainder after the value must be
whitespace. -/
def jsonParse (s : String) : Option Json :=
  match parseValue (s.length + 1) s.data with
  | some (j, rest) => if (skipWs rest).isEmpty then some j else none
  | none => none

/-- Field access on a parsed body (`body.payload`, `wrapper.entity`, ...). -/
def Json.get : Json → String → Option Json
  | .obj fs, k =>
    match fs.find? (fun kv => kv.1 = k) with
    | some kv => some kv.2
    | none => none
  | _, _ => none

/-- Entity extraction at the top of `processWebhookEvent`:
`const { entity } = payload.payment || payload.order || payload.refund || {}`.
A missing `payload` raises in JS exactly like a missing entity throws the
`Invalid webhook payload` error: both land in the route's catch, so both are
modelled as `none`. -/
def webhookEntity (body : Json) : Option Json :=
  match body.get "payload" with
  | none => none
  | some pl =>
    match ((pl.get "payment").orElse fun _ =>
        (pl.get "order").orElse fun _ => pl.get "refund") with
    | none => none
    | some wrapper => wrapper.get "entity"

/-- HTTP outcome of `POST /webhooks/razorpay`: 200 with `status:'success'`,
200 with `status:'acknowledged'` (the catch-all), 400 for a signature
mismatch, 500 when the webhook secret is not configured. -/
inductive WebhookResponse where
  | ok200
  | ack200 (msg : String)
  | bad400sig
  | err500config
deriving DecidableEq, Repr

/-- HTTP status code of a webhook response. -/
def statusOf : WebhookResponse → Nat
  | .ok200 => 200
  | .ack200 _ => 200
  | .bad400sig => 400
  | .err500config => 500

/-- The webhook route handler (`routes/webhooks.js` lines 12-61).  `mac` is the
HMAC-SHA256-hex oracle, `header` the `X-Razorpay-Signature` header, `body` the
body *as parsed by the express json middleware*, and `handlerResult` the
outcome of the dispatched business handler.  The source recomputes the
signature over `JSON.stringify(req.body)` — the re-serialization of the parsed
body — and answers 200 for every signature-valid request: handler errors and
shape errors are caught and acknowledged. -/
def razorpayWebhook (secret : Option String) (mac : String → String → String)
    (header : Option String) (body : Json) (handlerResult : Except String Unit) :
    WebhookResponse :=
  match secret with
  | none => .err500config
  | some s =>
    let expectedSignature := mac s body.stringify
    if header ≠ some expectedSignature then .bad400sig
    else
      match webhookEntity body with
      | none => .ack200 "Invalid webhook payload"
      | some _ =>
        match handlerResult with
        | .ok _ => .ok200
        | .error m => .ack200 m

/-- The webhook check as the spec words it (§4.4), kept for comparison with the
implemented route: the HMAC runs over the *raw, unparsed* request body
(`rawBody`), everything after the signature check is as implemented. -/
def webhookSpecRawBody (secret : Option String) (mac : String → String → String)
    (header : Option String) (rawBody : String) (body : Json)
    (handlerResult : Except String Unit) : WebhookResponse :=
  match secret with
  | none => .err500config
  | some s =>
    let expectedSignature := mac s rawBody
    if header ≠ some expectedSignature then .bad400sig
    else
      match webhookEntity body with
      | none => .ack200 "Invalid webhook payload"
      | some _ =>
        match handlerResult with
        | .ok _ => .ok200
        | .error m => .ack200 m

/-- Webhook `payment.captured` entity fields the handler reads. -/
structure WebhookPayment where
  id : String
  fee : ℚ
  tax : ℚ
deriving DecidableEq, Repr

/-- Transaction-level effect of `handlePaymentCaptured` (webhooks.js lines
161-200): `addStatusUpdate('captured', ...)`, then, when a fee or tax is
reported, overwrite the fees sub-record, assign
`netAmount = amount - fees.totalFee` and save again. -/
def capturedApply (t : Transaction) (p : WebhookPayment) : Transaction :=
  let t1 := addStatusUpdate t .captured "Payment captured by gateway"
  if p.fee ≠ 0 ∨ p.tax ≠ 0 then
    let fees : Fees :=
      { gatewayFee := p.fee / 100, serviceTax := p.tax / 100,
        totalFee := (p.fee + p.tax) / 100 }
    preSave { t1 with fees := fees, netAmount := t1.amount - fees.totalFee } false
  else t1

/-- The `payment.captured` webhook handler over the store: look the transaction
up by gateway payment id (a missing one is tolerated as a warning) and apply
the capture update. -/
def handlePaymentCaptured (st : Store) (p : WebhookPayment) : Store :=
  match st.transactions.find? (fun t => t.gatewayPaymentId = some p.id) with
  | none => st
  | some t => st.setTx (capturedApply t p)

/-- The `mapRazorpayStatus` helper of `paymentMonitoring.js` (lines 445-454):
a lookup table with default `'pending'`. -/
def mapRazorpayStatus (s : String) : Status :=
  if s = "created" then .initiated
  else if s = "authorized" then .authorized
  else if s = "captured" then .success
  else if s = "refunded" then .refunded
  else if s = "failed" then .failed
  else .pending

/-- Transaction-level effect of `reconcileTransaction` (paymentMonitoring.js
lines 164-227) when the gateway fetch succeeded: map the gateway status; when
it differs from the stored one, `addStatusUpdate`, overwrite fees and
`netAmount` when a fee or tax is reported, and save again; otherwise leave the
document untouched. -/
def reconcileApply (t : Transaction) (p : PaymentDetails) : Transaction :=
  let newStatus := mapRazorpayStatus p.status
  if newStatus ≠ t.status then
    let t1 := addStatusUpdate t newStatus "Status updated via reconciliation"
    let t2 :=
      if p.fee ≠ 0 ∨ p.tax ≠ 0 then
        let fees := calculateFees p
        { t1 with fees := fees, netAmount := t1.amount - fees.totalFee }
      else t1
    preSave t2 false
  else t

/-- Transaction-level effect of `reconcileTransaction` when the gateway
answered 404 for the payment id: definitive failure. -/
def reconcile404 (t : Transaction) : Transaction :=
  addStatusUpdate t .failed "Payment not found in gateway"

/-- Seven days in milliseconds, the staleness window of
`cleanupStaleTransactions`. -/
def staleWindowMs : Nat := 7 * 24 * 60 * 60 * 1000

/-- Selection predicate of the expiry sweep:
`status ∈ {initiated, pending}` and `createdAt < now - 7 days`. -/
def isStaleTx (now : Nat) (t : Transaction) : Bool :=
  (t.status = Status.initiated || t.status = Status.pending)
    && decide (t.createdAt < now - staleWindowMs)

/-- The expiry sweep `cleanupStaleTransactions` (paymentMonitoring.js lines
333-384): every selected transaction gets `addStatusUpdate('expired', ...)`,
and its linked order, when it exists and is still `pending`, is cancelled.
Unselected transactions and unlinked/non-pending orders are untouched. -/
def cleanupStaleTransactions (now : Nat) (st : Store) : Store :=
  { transactions := st.transactions.map (fun t =>
      if isStaleTx now t then
        addStatusUpdate t .expired "Transaction expired due to inactivity"
      else t),
    orders := st.orders.map (fun o =>
      if o.status = OrderStatus.pending
          && (st.transactions.filter (isStaleTx now)).any
              (fun t => t.orderId = some o.id) then
        { o with status := OrderStatus.cancelled }
      else o) }

/-- HMAC oracle used in the concrete scenarios: the digest of a message is the
message itself.  The controllers and routes are parametric in the MAC
primitive (it is an external library call), so any concrete instance exhibits
their control flow; what the theorems observe is which input string gets
MAC-ed and compared. -/
def idMac : String → String → String := fun _ m => m

/-- Gateway oracle answering every fetch with a captured payment of 500 INR
(in paise) and no fees. -/
def exFetchCaptured : String → Except GatewayError PaymentDetails :=
  fun _ => .ok { amount := 500 * 100, status := "captured", fee := 0, tax := 0 }

/-- Verification environment of the concrete scenarios. -/
def exEnv : VerifyEnv :=
  { secret := "sec", mac := idMac, fetchPayment := exFetchCaptured }

/-- A freshly initiated 500-INR transaction. -/
def exTx : Transaction :=
  { txId := "txn_1", status := .initiated, previousStatus := none,
    statusHistory := [], amount := 500, fees := ⟨0, 0, 0⟩, netAmount := 500,
    orderId := none, gatewayPaymentId := none, createdAt := 0, refundAmt := none }

/-- The same transaction after a successful verification: terminal `success`,
linked to Order 1. -/
def exTxSuccess : Transaction :=
  { exTx with
    status := .success,
    statusHistory := [⟨.success, "Payment verified and captured"⟩],
    orderId := some 1,
    gatewayPaymentId := some "pid" }

/-- Verification request whose signature is valid under `idMac`. -/
def exReq : VerifyReq :=
  { razorpayOrderId := "oid", razorpayPaymentId := "pid",
    razorpaySignature := "oid|pid", transactionId := "txn_1" }

/-- Store holding just the initiated transaction. -/
def exStore : Store := { transactions := [exTx], orders := [] }

/-- Store after the first successful verification: the success transaction and
its Order. -/
def exStoreSuccess : Store :=
  { transactions := [exTxSuccess], orders := [⟨1, .confirmed, true⟩] }

/-- The payment detail `exFetchCaptured` answers with. -/
def exDetailsOk : PaymentDetails :=
  { amount := 500 * 100, status := "captured", fee := 0, tax := 0 }

/-- Verification request carrying a signature that does not match the
recomputed one. -/
def exReqBadSig : VerifyReq := { exReq with razorpaySignature := "tampered" }

/-- Gateway failure that is not retryable: a plain 400 validation error. -/
def exErrFatal : GatewayError := { statusCode := some 400, message := "Bad request" }

/-- Gateway failure that is retryable by message: a connection timeout with no
status code. -/
def exErrTimeout : GatewayError := { statusCode := none, message := "Connection TIMEOUT" }

/-- Gateway oracle failing the first attempt with a retryable error. -/
def exRespRetry : Nat → Except GatewayError Nat :=
  fun n => if n = 1 then .error exErrTimeout else .ok 7

/-- Gateway oracle failing the first attempt with a non-retryable error. -/
def exRespFatal : Nat → Except GatewayError Nat :=
  fun n => if n = 1 then .error exErrFatal else .ok 7

/-- Raw webhook body as received on the wire, with whitespace after the
colon. -/
def exRawBody : String := "\x7b\"event\": \"x\"\x7d"

/-- The parse of `exRawBody` as express's json middleware produces it. -/
def exParsedBody : Json := .obj [("event", .str "x")]

/-- A parsed webhook body without a `payload` field: its shape is invalid for
`processWebhookEvent`. -/
def exShapelessBody : Json := .obj [("event", .str "payment.captured")]

/-- Captured-payment webhook entity carrying a gateway fee of 200 paise and
tax of 36 paise. -/
def exPay : WebhookPayment := { id := "pid", fee := 200, tax := 36 }

/-- Gateway payment detail with fees, as reconciliation fetches it. -/
def exDetails : PaymentDetails :=
  { amount := 500 * 100, status := "captured", fee := 200, tax := 36 }

/-- Gateway payment detail with an unrecognized status string. -/
def exDetailsWeird : PaymentDetails :=
  { amount := 500 * 100, status := "weird", fee := 0, tax := 0 }

/-- Reference time of the expiry-sweep scenario. -/
def exNow : Nat := 1000000000

/-- A transaction stuck `pending` since epoch (far older than 7 days at
`exNow`), linked to Order 5. -/
def exStaleTx : Transaction :=
  { exTx with txId := "txn_old", status := .pending, orderId := some 5 }

/-- Sweep scenario store: the stale pending transaction with its pending
Order 5, next to a successful transaction that must be left alone. -/
def exStore8 : Store :=
  { transactions := [exStaleTx, exTxSuccess],
    orders := [⟨5, .pending, false⟩] }

/-- A paid transaction eligible for refund, linked to Order 5. -/
def exTxPaid : Transaction :=
  { exTx with status := .success, orderId := some 5, gatewayPaymentId := some "pid" }

/-- Refund scenario store. -/
def exStore9 : Store :=
  { transactions := [exTxPaid], orders := [⟨5, .confirmed, true⟩] }

/-- Closed form of the pushed history: the explicit entry, plus the hook's
`Status changed` entry exactly when the status actually changed. -/
@[simp]
theorem addStatusUpdate_statusHistory (t : Transaction) (s : Status) (r : String) :
    (addStatusUpdate t s r).statusHistory =
      t.statusHistory ++ [⟨s, r⟩] ++
        (if s = t.status then [] else [⟨s, "Status changed"⟩]) := by
  simp only [addStatusUpdate, preSave]
  split_ifs with h1 h2 h3 <;> simp_all

/-- The stored status always becomes the requested one. -/
@[simp]
theorem addStatusUpdate_status (t : Transaction) (s : Status) (r : String) :
    (addStatusUpdate t s r).status = s := by
  simp only [addStatusUpdate, preSave]
  split_ifs <;> rfl

/-- After the save, `previousStatus` holds the *new* status (the hook reads
the undefined `this.original?.status` and falls back to the current status). -/
theorem addStatusUpdate_previousStatus (t : Transaction) (s : Status) (r : String) :
    (addStatusUpdate t s r).previousStatus = some s := by
  simp only [addStatusUpdate, preSave]
  split_ifs with h1 h2 h3 <;> simp_all

@[simp]
theorem addStatusUpdate_txId (t : Transaction) (s : Status) (r : String) :
    (addStatusUpdate t s r).txId = t.txId := by
  simp only [addStatusUpdate, preSave]
  split_ifs <;> rfl

@[simp]
theorem addStatusUpdate_amount (t : Transaction) (s : Status) (r : String) :
    (addStatusUpdate t s r).amount = t.amount := by
  simp only [addStatusUpdate, preSave]
  split_ifs <;> rfl

@[simp]
theorem addStatusUpdate_fees (t : Transaction) (s : Status) (r : String) :
    (addStatusUpdate t s r).fees = t.fees := by
  simp only [addStatusUpdate, preSave]
  split_ifs <;> rfl

@[simp]
theorem addStatusUpdate_orderId (t : Transaction) (s : Status) (r : String) :
    (addStatusUpdate t s r).orderId = t.orderId := by
  simp only [addStatusUpdate, preSave]
  split_ifs <;> rfl

@[simp]
theorem addStatusUpdate_refundAmt (t : Transaction) (s : Status) (r : String) :
    (addStatusUpdate t s r).refundAmt = t.refundAmt := by
  simp only [addStatusUpdate, preSave]
  split_ifs <;> rfl

@[simp]
theorem addStatusUpdate_createdAt (t : Transaction) (s : Status) (r : String) :
    (addStatusUpdate t s r).createdAt = t.createdAt := by
  simp only [addStatusUpdate, preSave]
  split_ifs <;> rfl

/-- The save recomputes `netAmount` whenever the amount is truthy. -/
theorem addStatusUpdate_netAmount (t : Transaction) (s : Status) (r : String) :
    (addStatusUpdate t s r).netAmount =
      if t.amount = 0 then t.netAmount else t.amount - t.fees.totalFee := by
  simp only [addStatusUpdate, preSave]
  split_ifs <;> simp_all

@[simp]
theorem preSave_status (t : Transaction) (flag : Bool) :
    (preSave t flag).status = t.status := by
  simp only [preSave]
  split_ifs <;> rfl

@[simp]
theorem preSave_amount (t : Transaction) (flag : Bool) :
    (preSave t flag).amount = t.amount := by
  simp only [preSave]
  split_ifs <;> rfl

@[simp]
theorem preSave_fees (t : Transaction) (flag : Bool) :
    (preSave t flag).fees = t.fees := by
  simp only [preSave]
  split_ifs <;> rfl

theorem preSave_netAmount (t : Transaction) (flag : Bool) :
    (preSave t flag).netAmount =
      if t.amount = 0 then t.netAmount else t.amount - t.fees.totalFee := by
  simp only [preSave]
  split_ifs <;> simp_all

/-- A successful `findTx` pins the transaction id of the result. -/
theorem findTx_txId (st : Store) (x : String) (t : Transaction)
    (h : st.findTx x = some t) : t.txId = x := by
  have := List.find?_some h
  exact of_decide_eq_true this

/-- Auxiliary for `findTx_setTx`, stated over the raw list. -/
theorem find?_map_update (l : List Transaction) (x : String) (t t' : Transaction)
    (h : l.find? (fun u => u.txId = x) = some t) (ht : t'.txId = t.txId) :
    (l.map (fun u => if u.txId = t'.txId then t' else u)).find?
      (fun u => u.txId = x) = some t' := by
  have htx : t.txId = x :=
    findTx_txId { transactions := l, orders := [] } x t h
  induction l with
  | nil => simp at h
  | cons a l ih =>
    by_cases ha : a.txId = x
    · rw [List.find?_cons_of_pos l (by simpa using ha)] at h
      have hat : a = t := by simpa using h
      subst hat
      simp only [List.map_cons, if_pos ht.symm]
      exact List.find?_cons_of_pos _ (by simpa using ht.trans htx)
    · rw [List.find?_cons_of_neg l (by simpa using ha)] at h
      have hne : ¬ a.txId = t'.txId := by
        rw [ht, htx]; exact ha
      simp only [List.map_cons, if_neg hne]
      rw [List.find?_cons_of_neg _ (by simpa using ha)]
      exact ih h

/-- Saving an updated copy of the found transaction makes the lookup return
the copy. -/
theorem findTx_setTx (st : Store) (x : String) (t t' : Transaction)
    (h : st.findTx x = some t) (ht : t'.txId = t.txId) :
    (st.setTx t').findTx x = some t' :=
  find?_map_update st.transactions x t t' h ht

@[simp]
theorem setTx_orders (st : Store) (t : Transaction) :
    (st.setTx t).orders = st.orders := rfl

@[simp]
theorem mapOrder_transactions (st : Store) (oid : Nat) (f : Order → Order) :
    (st.mapOrder oid f).transactions = st.transactions := rfl

@[simp]
theorem findTx_mapOrder (st : Store) (oid : Nat) (f : Order → Order) (x : String) :
    (st.mapOrder oid f).findTx x = st.findTx x := rfl

/-- C1: counterexample.  `exTxSuccess` sits in the terminal state `success`;
an `addStatusUpdate` into the *different* terminal state `failed` is applied,
not rejected — the stored status changes, and the full status history then
contains `success` followed by `failed`, both of which the claim rules out. -/
theorem c1_counterexample :
    Status.isTerminal exTxSuccess.status = true ∧
    Status.isTerminal Status.failed = true ∧
    Status.failed ≠ exTxSuccess.status ∧
    (addStatusUpdate exTxSuccess .failed "Payment failed at gateway").status ≠
      exTxSuccess.status ∧
    (addStatusUpdate exTxSuccess .failed "Payment failed at gateway").statusHistory.map
        (fun e => e.status) = [.success, .failed, .failed] := by
  refine ⟨rfl, rfl, by decide, ?_, ?_⟩
  · rw [addStatusUpdate_status]
    decide
  · rw [addStatusUpdate_statusHistory]
    simp [exTxSuccess, exTx]

/-- C1 (amended): the store's `addStatusUpdate` applies every requested
transition unconditionally — the stored status always becomes the requested
status (so a transition from a terminal state into a different terminal state
is applied, not rejected), and every call appends its entry to the history
(plus the hook's `Status changed` entry when the status actually changed), so
a same-terminal-state transition is not a pure no-op either. -/
theorem c1_amended (t : Transaction) (s : Status) (r : String) :
    (addStatusUpdate t s r).status = s ∧
    (addStatusUpdate t s r).statusHistory =
      t.statusHistory ++ [⟨s, r⟩] ++
        (if s = t.status then [] else [⟨s, "Status changed"⟩]) :=
  ⟨addStatusUpdate_status t s r, addStatusUpdate_statusHistory t s r⟩

/-- C2: counterexample.  A first `verifyPayment` call on the initiated 500-INR
transaction succeeds and creates Order 1; resubmitting the *same* request
(same gateway payment id) against the resulting store does not return the
existing Order: it creates and returns a second Order (id 2), and the store
then holds two orders. -/
theorem c2_counterexample :
    (verifyPayment exEnv exStore exReq).2 = .ok 1 ∧
    (verifyPayment exEnv exStore exReq).1.orders.length = 1 ∧
    (verifyPayment exEnv (verifyPayment exEnv exStore exReq).1 exReq).2 = .ok 2 ∧
    (verifyPayment exEnv (verifyPayment exEnv exStore exReq).1 exReq).1.orders.length =
      2 := by
  norm_num +decide [verifyPayment, Store.findTx, Store.setTx, verifyCatch,
    addStatusUpdate, preSave, calculateFees, freshOrderId, exEnv, exStore, exReq,
    exTx, idMac, exFetchCaptured, List.find?]

/-- C2 (amended): `verifyPayment` has no idempotency guard.  Whenever the
lookup, signature, amount and capture checks pass — including a resubmission
for a transaction that is already `success` — it inserts a fresh Order, links
the transaction to it, returns the *new* order id, and appends further status
history (one entry when the status was already `success`, two otherwise). -/
theorem c2_amended (env : VerifyEnv) (st : Store) (req : VerifyReq)
    (t : Transaction) (p : PaymentDetails)
    (ho : req.razorpayOrderId ≠ "") (hp : req.razorpayPaymentId ≠ "")
    (hs : req.razorpaySignature ≠ "") (htid : req.transactionId ≠ "")
    (hf : st.findTx req.transactionId = some t)
    (hsig : env.mac env.secret (req.razorpayOrderId ++ "|" ++ req.razorpayPaymentId) =
      req.razorpaySignature)
    (hfetch : env.fetchPayment req.razorpayPaymentId = .ok p)
    (hamt : p.amount = t.amount * 100) (hcap : p.status = "captured") :
    (verifyPayment env st req).1.orders =
      st.orders ++ [{ id := freshOrderId st, status := .confirmed, isPaid := true }] ∧
    (verifyPayment env st req).2 = .ok (freshOrderId st) ∧
    ((verifyPayment env st req).1.findTx req.transactionId).map
        (fun u => u.statusHistory.length) =
      some (t.statusHistory.length + (if t.status = .success then 1 else 2)) := by
  have hbody : verifyPayment env st req =
      (Store.setTx
          { st with orders := st.orders ++
              [{ id := freshOrderId st, status := .confirmed, isPaid := true }] }
          (addStatusUpdate
            { t with
              orderId := some (freshOrderId st),
              gatewayPaymentId := some req.razorpayPaymentId,
              fees := calculateFees p }
            .success "Payment verified and captured"),
        .ok (freshOrderId st)) := by
    simp only [verifyPayment, hf, hfetch, hsig, hamt, hcap, ne_eq]
    rw [if_neg (by simp [ho, hp, hs]), if_neg (by simp [htid])]
    simp
  have hf1 : Store.findTx
      { st with orders := st.orders ++
          [{ id := freshOrderId st, status := .confirmed, isPaid := true }] }
      req.transactionId = some t := hf
  refine ⟨?_, ?_, ?_⟩
  · rw [hbody]
    rfl
  · rw [hbody]
  · rw [hbody]
    rw [findTx_setTx _ _ _ _ hf1 (by rw [addStatusUpdate_txId])]
    simp only [Option.map_some', addStatusUpdate_statusHistory]
    by_cases hst : t.status = .success
    · simp [hst]
    · rw [if_neg fun h => hst h.symm]
      simp [hst]

/-- C3: when the recomputed signature over `gatewayOrderId|gatewayPaymentId`
differs from the submitted one, `verifyPayment` surfaces the 400
`Payment verification failed` error, creates no Order, and the stored
transaction ends `failed` with the `Invalid payment signature` reason in its
history. -/
theorem c3_signature_mismatch (env : VerifyEnv) (st : Store) (req : VerifyReq)
    (t : Transaction)
    (ho : req.razorpayOrderId ≠ "") (hp : req.razorpayPaymentId ≠ "")
    (hs : req.razorpaySignature ≠ "") (htid : req.transactionId ≠ "")
    (hf : st.findTx req.transactionId = some t)
    (hsig : env.mac env.secret (req.razorpayOrderId ++ "|" ++ req.razorpayPaymentId) ≠
      req.razorpaySignature) :
    (verifyPayment env st req).2 = .err 400 "Payment verification failed" ∧
    (verifyPayment env st req).1.orders = st.orders ∧
    ∃ t', (verifyPayment env st req).1.findTx req.transactionId = some t' ∧
      t'.status = .failed ∧
      (⟨.failed, "Invalid payment signature"⟩ : StatusEntry) ∈ t'.statusHistory := by
  have hf1 : (st.setTx (addStatusUpdate t .failed "Invalid payment signature")).findTx
      req.transactionId = some (addStatusUpdate t .failed "Invalid payment signature") :=
    findTx_setTx _ _ _ _ hf (by rw [addStatusUpdate_txId])
  have hbody : verifyPayment env st req =
      ((st.setTx (addStatusUpdate t .failed "Invalid payment signature")).setTx
          (addStatusUpdate (addStatusUpdate t .failed "Invalid payment signature")
            .failed "Payment verification failed"),
        .err 400 "Payment verification failed") := by
    simp only [verifyPayment, hf, ne_eq]
    rw [if_neg (by simp [ho, hp, hs]), if_neg (by simp [htid]), if_pos (by simpa using hsig)]
    simp only [verifyCatch, hf1]
  refine ⟨by rw [hbody], by rw [hbody]; simp, ?_⟩
  refine ⟨addStatusUpdate (addStatusUpdate t .failed "Invalid payment signature")
    .failed "Payment verification failed", ?_, ?_, ?_⟩
  · rw [hbody]
    exact findTx_setTx _ _ _ _ hf1 (by rw [addStatusUpdate_txId, addStatusUpdate_txId])
  · rw [addStatusUpdate_status]
  · rw [addStatusUpdate_statusHistory, addStatusUpdate_statusHistory]
    simp

/-- C2 (amended), witness: the concrete resubmission scenario — the store
already holds the successful transaction and Order 1, and the repeated request
passes every check, so a second Order is appended and returned. -/
theorem c2_amended_witness :
    (verifyPayment exEnv exStoreSuccess exReq).1.orders =
      exStoreSuccess.orders ++
        [{ id := freshOrderId exStoreSuccess, status := .confirmed, isPaid := true }] ∧
    (verifyPayment exEnv exStoreSuccess exReq).2 = .ok (freshOrderId exStoreSuccess) ∧
    ((verifyPayment exEnv exStoreSuccess exReq).1.findTx exReq.transactionId).map
        (fun u => u.statusHistory.length) =
      some (exTxSuccess.statusHistory.length +
        (if exTxSuccess.status = .success then 1 else 2)) :=
  c2_amended exEnv exStoreSuccess exReq exTxSuccess exDetailsOk
    (by decide) (by decide) (by decide) (by decide) rfl rfl rfl rfl rfl

/-- C3, witness: the concrete tampered-signature request against the initiated
transaction is rejected with the 400 verification error, creates no Order, and
leaves the transaction `failed` with the signature-mismatch reason. -/
theorem c3_witness :
    (verifyPayment exEnv exStore exReqBadSig).2 = .err 400 "Payment verification failed" ∧
    (verifyPayment exEnv exStore exReqBadSig).1.orders = exStore.orders ∧
    ∃ t', (verifyPayment exEnv exStore exReqBadSig).1.findTx exReqBadSig.transactionId =
        some t' ∧
      t'.status = .failed ∧
      (⟨.failed, "Invalid payment signature"⟩ : StatusEntry) ∈ t'.statusHistory :=
  c3_signature_mismatch exEnv exStore exReqBadSig exTx
    (by decide) (by decide) (by decide) (by decide) rfl (by decide)

/-- C4: after each fee-writing operation completes its save, the stored record
satisfies `netAmount = amount - fees.totalFee`: the pre-save hook itself (any
save of a transaction with a truthy amount), the `addStatusUpdate` save used by
the verification success path, the webhook `payment.captured` handler, and the
reconciliation update. -/
theorem c4_net_amount (t : Transaction) (flag : Bool) (s : Status) (r : String)
    (p : WebhookPayment) (q : PaymentDetails)
    (ha : t.amount ≠ 0) (hq : mapRazorpayStatus q.status ≠ t.status) :
    (preSave t flag).netAmount =
      (preSave t flag).amount - (preSave t flag).fees.totalFee ∧
    (addStatusUpdate t s r).netAmount =
      (addStatusUpdate t s r).amount - (addStatusUpdate t s r).fees.totalFee ∧
    (capturedApply t p).netAmount =
      (capturedApply t p).amount - (capturedApply t p).fees.totalFee ∧
    (reconcileApply t q).netAmount =
      (reconcileApply t q).amount - (reconcileApply t q).fees.totalFee := by
  refine ⟨?_, ?_, ?_, ?_⟩
  · rw [preSave_netAmount, preSave_amount, preSave_fees, if_neg ha]
  · rw [addStatusUpdate_netAmount, addStatusUpdate_amount, addStatusUpdate_fees, if_neg ha]
  · unfold capturedApply
    split
    · simp [preSave_netAmount, preSave_amount, preSave_fees, ha]
    · rw [addStatusUpdate_netAmount, addStatusUpdate_amount, addStatusUpdate_fees,
        if_neg ha]
  · simp only [reconcileApply]
    rw [if_pos hq]
    split
    · simp [preSave_netAmount, preSave_amount, preSave_fees, ha]
    · simp [preSave_netAmount, preSave_amount, preSave_fees, ha]

/-- C4, witness: the fee equation at the concrete transaction — a plain save,
the verification success save, the captured webhook with 200 + 36 paise of
fees, and reconciliation against the captured gateway detail. -/
theorem c4_witness :
    (preSave exTx true).netAmount =
      (preSave exTx true).amount - (preSave exTx true).fees.totalFee ∧
    (addStatusUpdate exTx .success "Payment verified and captured").netAmount =
      (addStatusUpdate exTx .success "Payment verified and captured").amount -
        (addStatusUpdate exTx .success "Payment verified and captured").fees.totalFee ∧
    (capturedApply exTx exPay).netAmount =
      (capturedApply exTx exPay).amount - (capturedApply exTx exPay).fees.totalFee ∧
    (reconcileApply exTx exDetails).netAmount =
      (reconcileApply exTx exDetails).amount -
        (reconcileApply exTx exDetails).fees.totalFee :=
  c4_net_amount exTx true .success "Payment verified and captured" exPay exDetails
    (by decide) (by decide)

/-- C5: the bounded-retry harness of the gateway adapter calls (shared by
order create and payment fetch), characterized attempt by attempt.  For every
oracle: the back-off sleep trace is `[]`, `[1000]` or `[1000, 2000]` ms (so at
most 3 attempts); `calculateRetryDelay` realizes `min(1000*2^(n-1), 10000)`
for every attempt number, and the trace is exactly that formula instance per
retried attempt; the surfaced result is the outcome of the final attempt;
every attempt that was followed by a retry had failed with a *retryable* error
(status code in {429, 500, 502, 503, 504} or a timeout/network/connection
message); and when the final attempt fails, no retry happened because the
error was not retryable or the 3-attempt ceiling was reached — so every
non-retryable failure, at any attempt, surfaces immediately without retry. -/
theorem c5_retry_policy (resp : Nat → Except GatewayError Nat) :
    ((runWithRetry resp).2 = [] ∨ (runWithRetry resp).2 = [1000] ∨
      (runWithRetry resp).2 = [1000, 2000]) ∧
    (runWithRetry resp).2.length + 1 ≤ RETRY_CONFIG.maxAttempts ∧
    (∀ n, 1 ≤ n → calculateRetryDelay n = min (1000 * 2 ^ (n - 1)) 10000) ∧
    (runWithRetry resp).2 =
      (List.range (runWithRetry resp).2.length).map
        (fun i => calculateRetryDelay (i + 1)) ∧
    (runWithRetry resp).1 = resp ((runWithRetry resp).2.length + 1) ∧
    (∀ k, k < (runWithRetry resp).2.length →
      ∃ e, resp (k + 1) = .error e ∧ isRetryableError e = true) ∧
    (∀ e, resp ((runWithRetry resp).2.length + 1) = .error e →
      isRetryableError e = false ∨
        (runWithRetry resp).2.length + 1 = RETRY_CONFIG.maxAttempts) := by
  have hformula : ∀ n, 1 ≤ n →
      calculateRetryDelay n = min (1000 * 2 ^ (n - 1)) 10000 := by
    intro n hn
    rfl
  cases h1 : resp 1 with
  | ok a =>
    have hrun : runWithRetry resp = (.ok a, []) := by
      simp [runWithRetry, runRetryAux, h1]
    refine ⟨?_, ?_, hformula, ?_, ?_, ?_, ?_⟩
    · rw [hrun]
      left
      rfl
    · rw [hrun]
      simp [RETRY_CONFIG, calculateRetryDelay, List.range_succ]
    · rw [hrun]
      rfl
    · rw [hrun]
      exact h1.symm
    · rw [hrun]
      intro k hk
      exact absurd (show k < 0 from hk) (Nat.not_lt_zero k)
    · rw [hrun]
      intro e he
      have he' : resp 1 = Except.error e := he
      rw [h1] at he'
      exact Except.noConfusion he'
  | error e1 =>
    cases hr1 : isRetryableError e1 with
    | false =>
      have hrun : runWithRetry resp = (.error e1, []) := by
        simp [runWithRetry, runRetryAux, h1, hr1, RETRY_CONFIG]
      refine ⟨?_, ?_, hformula, ?_, ?_, ?_, ?_⟩
      · rw [hrun]
        left
        rfl
      · rw [hrun]
        simp [RETRY_CONFIG, calculateRetryDelay, List.range_succ]
      · rw [hrun]
        rfl
      · rw [hrun]
        exact h1.symm
      · rw [hrun]
        intro k hk
        exact absurd (show k < 0 from hk) (Nat.not_lt_zero k)
      · rw [hrun]
        intro e he
        have he' : resp 1 = Except.error e := he
        rw [h1] at he'
        injection he' with hh
        left
        rw [← hh]
        exact hr1
    | true =>
      cases h2 : resp 2 with
      | ok a =>
        have hrun : runWithRetry resp = (.ok a, [1000]) := by
          simp [runWithRetry, runRetryAux, h1, hr1, h2, RETRY_CONFIG,
            calculateRetryDelay]
        refine ⟨?_, ?_, hformula, ?_, ?_, ?_, ?_⟩
        · rw [hrun]
          right
          left
          rfl
        · rw [hrun]
          simp [RETRY_CONFIG, calculateRetryDelay, List.range_succ]
        · rw [hrun]
          simp [RETRY_CONFIG, calculateRetryDelay, List.range_succ]
        · rw [hrun]
          exact h2.symm
        · rw [hrun]
          intro k hk
          have hk0 : k = 0 := by
            have hk' : k < 1 := hk
            omega
          subst hk0
          exact ⟨e1, h1, hr1⟩
        · rw [hrun]
          intro e he
          have he' : resp 2 = Except.error e := he
          rw [h2] at he'
          exact Except.noConfusion he'
      | error e2 =>
        cases hr2 : isRetryableError e2 with
        | false =>
          have hrun : runWithRetry resp = (.error e2, [1000]) := by
            simp [runWithRetry, runRetryAux, h1, hr1, h2, hr2, RETRY_CONFIG,
              calculateRetryDelay]
          refine ⟨?_, ?_, hformula, ?_, ?_, ?_, ?_⟩
          · rw [hrun]
            right
            left
            rfl
          · rw [hrun]
            simp [RETRY_CONFIG, calculateRetryDelay, List.range_succ]
          · rw [hrun]
            simp [RETRY_CONFIG, calculateRetryDelay, List.range_succ]
          · rw [hrun]
            exact h2.symm
          · rw [hrun]
            intro k hk
            have hk0 : k = 0 := by
              have hk' : k < 1 := hk
              omega
            subst hk0
            exact ⟨e1, h1, hr1⟩
          · rw [hrun]
            intro e he
            have he' : resp 2 = Except.error e := he
            rw [h2] at he'
            injection he' with hh
            left
            rw [← hh]
            exact hr2
        | true =>
          cases h3 : resp 3 with
          | ok a =>
            have hrun : runWithRetry resp = (.ok a, [1000, 2000]) := by
              simp [runWithRetry, runRetryAux, h1, hr1, h2, hr2, h3, RETRY_CONFIG,
                calculateRetryDelay]
            refine ⟨?_, ?_, hformula, ?_, ?_, ?_, ?_⟩
            · rw [hrun]
              right
              right
              rfl
            · rw [hrun]
              simp [RETRY_CONFIG, calculateRetryDelay, List.range_succ]
            · rw [hrun]
              simp [RETRY_CONFIG, calculateRetryDelay, List.range_succ]
            · rw [hrun]
              exact h3.symm
            · rw [hrun]
              intro k hk
              have hk' : k < 2 := hk
              have hk01 : k = 0 ∨ k = 1 := by omega
              rcases hk01 with rfl | rfl
              · exact ⟨e1, h1, hr1⟩
              · exact ⟨e2, h2, hr2⟩
            · rw [hrun]
              intro e he
              have he' : resp 3 = Except.error e := he
              rw [h3] at he'
              exact Except.noConfusion he'
          | error e3 =>
            have hrun : runWithRetry resp = (.error e3, [1000, 2000]) := by
              simp [runWithRetry, runRetryAux, h1, hr1, h2, hr2, h3, RETRY_CONFIG,
                calculateRetryDelay]
            refine ⟨?_, ?_, hformula, ?_, ?_, ?_, ?_⟩
            · rw [hrun]
              right
              right
              rfl
            · rw [hrun]
              simp [RETRY_CONFIG, calculateRetryDelay, List.range_succ]
            · rw [hrun]
              simp [RETRY_CONFIG, calculateRetryDelay, List.range_succ]
            · rw [hrun]
              exact h3.symm
            · rw [hrun]
              intro k hk
              have hk' : k < 2 := hk
              have hk01 : k = 0 ∨ k = 1 := by omega
              rcases hk01 with rfl | rfl
              · exact ⟨e1, h1, hr1⟩
              · exact ⟨e2, h2, hr2⟩
            · rw [hrun]
              intro e he
              right
              rfl

/-- C5, witness: at the concrete oracles — a non-retryable 400 failure on the
first attempt stops with no retry because the error is not retryable, the
first retried attempt of the timeout oracle did fail retryably, and
`calculateRetryDelay` matches the back-off formula at attempt 1. -/
theorem c5_retry_witness :
    calculateRetryDelay 1 = min (1000 * 2 ^ (1 - 1)) 10000 ∧
    (isRetryableError exErrFatal = false ∨
      (runWithRetry exRespFatal).2.length + 1 = RETRY_CONFIG.maxAttempts) ∧
    (∃ e, exRespRetry (0 + 1) = .error e ∧ isRetryableError e = true) :=
  ⟨(c5_retry_policy exRespFatal).2.2.1 1 (by decide),
    (c5_retry_policy exRespFatal).2.2.2.2.2.2 exErrFatal (by rfl),
    (c5_retry_policy exRespRetry).2.2.2.2.2.1 0 (by decide)⟩

/-- C6: counterexample.  `exRawBody` carries whitespace, so it differs from the
re-serialization of its own parse.  A request signed over the *raw* body (as
the claim demands the service verify) is rejected with 400 by the implemented
route — which MACs `JSON.stringify(req.body)` — while the spec's raw-body
check accepts the same request: the service does not recompute the digest over
the raw, unparsed body. -/
theorem c6_counterexample :
    jsonParse exRawBody = some exParsedBody ∧
    Json.stringify exParsedBody ≠ exRawBody ∧
    statusOf (razorpayWebhook (some "whsec") idMac (some (idMac "whsec" exRawBody))
      exParsedBody (.ok ())) = 400 ∧
    statusOf (webhookSpecRawBody (some "whsec") idMac (some (idMac "whsec" exRawBody))
      exRawBody exParsedBody (.ok ())) = 200 :=
  ⟨rfl, by decide, rfl, rfl⟩

/-- C6 (amended): the webhook route recomputes the HMAC over
`JSON.stringify(req.body)` — a re-serialization of the body parsed by the
express json middleware, not the raw request bytes — and, given a configured
secret, rejects with 400 exactly when that digest differs from the signature
header, processing the event only on a match; it behaves like the spec's
raw-body check only when the raw body is replaced by the re-serialization. -/
theorem c6_amended (s : String) (mac : String → String → String)
    (header : Option String) (body : Json) (hr : Except String Unit) :
    razorpayWebhook (some s) mac header body hr =
      webhookSpecRawBody (some s) mac header (Json.stringify body) body hr ∧
    (statusOf (razorpayWebhook (some s) mac header body hr) = 400 ↔
      header ≠ some (mac s (Json.stringify body))) := by
  refine ⟨rfl, ?_⟩
  by_cases hh : header = some (mac s (Json.stringify body))
  · simp only [razorpayWebhook, hh, ne_eq, not_true_eq_false, if_neg, not_false_eq_true,
      if_false, iff_false]
    cases hE : webhookEntity body with
    | none => simp [statusOf]
    | some v =>
      cases hr with
      | ok u => simp [statusOf]
      | error m => simp [statusOf]
  · simp only [razorpayWebhook, ne_eq, hh, not_false_eq_true, if_true, statusOf,
      iff_true]

/-- C7: counterexample.  A webhook request with a *valid* signature but a
payload-shape failure (no `payload` field, hence no entity) is answered with
HTTP 200 (`status:'acknowledged'`), while the claim requires a 4xx and
"never 200" for payload-shape failures. -/
theorem c7_counterexample :
    webhookEntity exShapelessBody = none ∧
    razorpayWebhook (some "whsec") idMac
        (some (idMac "whsec" (Json.stringify exShapelessBody)))
        exShapelessBody (.ok ()) = .ack200 "Invalid webhook payload" ∧
    statusOf (razorpayWebhook (some "whsec") idMac
        (some (idMac "whsec" (Json.stringify exShapelessBody)))
        exShapelessBody (.ok ())) = 200 :=
  ⟨rfl, rfl, rfl⟩

/-- C7 (amended): with a configured secret the route answers 200 for *every*
signature-valid request — handler success, handler failure, unknown events and
payload-shape failures alike — and 400 exactly for signature mismatches;
without a configured secret it answers 500. -/
theorem c7_amended (s : String) (mac : String → String → String)
    (header : Option String) (body : Json) (hr : Except String Unit) :
    statusOf (razorpayWebhook (some s) mac header body hr) =
      (if header = some (mac s (Json.stringify body)) then 200 else 400) ∧
    statusOf (razorpayWebhook none mac header body hr) = 500 := by
  refine ⟨?_, rfl⟩
  by_cases hh : header = some (mac s (Json.stringify body))
  · rw [if_pos hh]
    simp only [razorpayWebhook, hh, ne_eq, not_true_eq_false, not_false_eq_true,
      if_neg, if_false]
    cases hE : webhookEntity body with
    | none => simp [statusOf]
    | some v =>
      cases hr with
      | ok u => simp [statusOf]
      | error m => simp [statusOf]
  · rw [if_neg hh]
    simp only [razorpayWebhook, ne_eq, hh, not_false_eq_true, if_true, statusOf]

/-- C8: the expiry sweep.  For every store and reference time, it neither adds
nor removes records; every transaction that is `initiated`/`pending` with a
creation time more than 7 days in the past transitions to `expired` (appending
two history entries: the sweep's entry and the hook's `Status changed` entry),
every other transaction is left exactly unchanged; every order that is still
`pending` and linked to a selected transaction becomes `cancelled`, and every
other order is left exactly unchanged. -/
theorem c8_expiry_sweep (now : Nat) (st : Store) :
    (cleanupStaleTransactions now st).transactions.length = st.transactions.length ∧
    (cleanupStaleTransactions now st).orders.length = st.orders.length ∧
    (∀ i (h1 : i < st.transactions.length)
        (h2 : i < (cleanupStaleTransactions now st).transactions.length),
      (isStaleTx now (st.transactions.get ⟨i, h1⟩) = true →
        ((cleanupStaleTransactions now st).transactions.get ⟨i, h2⟩).status = .expired ∧
        ((cleanupStaleTransactions now st).transactions.get ⟨i, h2⟩).statusHistory.length =
          (st.transactions.get ⟨i, h1⟩).statusHistory.length + 2) ∧
      (isStaleTx now (st.transactions.get ⟨i, h1⟩) = false →
        (cleanupStaleTransactions now st).transactions.get ⟨i, h2⟩ =
          st.transactions.get ⟨i, h1⟩)) ∧
    (∀ j (h1 : j < st.orders.length)
        (h2 : j < (cleanupStaleTransactions now st).orders.length),
      ((st.orders.get ⟨j, h1⟩).status = OrderStatus.pending ∧
          (∃ t ∈ st.transactions, isStaleTx now t = true ∧
            t.orderId = some (st.orders.get ⟨j, h1⟩).id) →
        ((cleanupStaleTransactions now st).orders.get ⟨j, h2⟩).status = .cancelled) ∧
      (¬((st.orders.get ⟨j, h1⟩).status = OrderStatus.pending ∧
          (∃ t ∈ st.transactions, isStaleTx now t = true ∧
            t.orderId = some (st.orders.get ⟨j, h1⟩).id)) →
        (cleanupStaleTransactions now st).orders.get ⟨j, h2⟩ =
          st.orders.get ⟨j, h1⟩)) := by
  refine ⟨by simp [cleanupStaleTransactions], by simp [cleanupStaleTransactions],
    ?_, ?_⟩
  · intro i h1 h2
    constructor
    · intro hstale
      have hss : (st.transactions.get ⟨i, h1⟩).status = Status.initiated ∨
          (st.transactions.get ⟨i, h1⟩).status = Status.pending := by
        have := hstale
        simp only [isStaleTx, Bool.and_eq_true, Bool.or_eq_true, decide_eq_true_eq] at this
        exact this.1
      have hne : ¬ Status.expired = (st.transactions.get ⟨i, h1⟩).status := by
        rcases hss with h | h <;> rw [h] <;> decide
      simp only [cleanupStaleTransactions, List.get_eq_getElem, List.getElem_map]
      rw [List.get_eq_getElem] at hstale
      rw [List.get_eq_getElem] at hne
      rw [if_pos hstale]
      refine ⟨addStatusUpdate_status _ _ _, ?_⟩
      rw [addStatusUpdate_statusHistory, if_neg hne]
      simp
    · intro hfresh
      simp only [cleanupStaleTransactions, List.get_eq_getElem, List.getElem_map]
      rw [List.get_eq_getElem] at hfresh
      rw [if_neg (by rw [hfresh]; exact Bool.false_ne_true)]
  · intro j h1 h2
    constructor
    · intro hcond
      have hb : ((st.orders.get ⟨j, h1⟩).status = OrderStatus.pending &&
          (st.transactions.filter (isStaleTx now)).any
            (fun t => t.orderId = some (st.orders.get ⟨j, h1⟩).id)) = true := by
        rcases hcond with ⟨hp, t, ht, hstale, hlink⟩
        simp only [Bool.and_eq_true, decide_eq_true_eq, List.any_eq_true,
          List.mem_filter]
        exact ⟨hp, t, ⟨ht, hstale⟩, by simp [hlink]⟩
      simp only [cleanupStaleTransactions, List.get_eq_getElem, List.getElem_map]
      rw [List.get_eq_getElem] at hb
      rw [if_pos hb]
    · intro hcond
      have hb : ¬(((st.orders.get ⟨j, h1⟩).status = OrderStatus.pending &&
          (st.transactions.filter (isStaleTx now)).any
            (fun t => t.orderId = some (st.orders.get ⟨j, h1⟩).id)) = true) := by
        intro hcontra
        apply hcond
        simp only [Bool.and_eq_true, decide_eq_true_eq, List.any_eq_true,
          List.mem_filter] at hcontra
        rcases hcontra with ⟨hp, t, ⟨ht, hstale⟩, hlink⟩
        exact ⟨hp, t, ht, hstale, by simpa using hlink⟩
      simp only [cleanupStaleTransactions, List.get_eq_getElem, List.getElem_map]
      rw [List.get_eq_getElem] at hb
      rw [if_neg hb]

/-- C8, witness: at the concrete store the stale pending transaction (index 0)
is expired, the successful transaction (index 1) is untouched, and the linked
pending Order 5 is cancelled. -/
theorem c8_expiry_witness :
    ((cleanupStaleTransactions exNow exStore8).transactions.get ⟨0, by decide⟩).status =
      .expired ∧
    (cleanupStaleTransactions exNow exStore8).transactions.get ⟨1, by decide⟩ =
      exStore8.transactions.get ⟨1, by decide⟩ ∧
    ((cleanupStaleTransactions exNow exStore8).orders.get ⟨0, by decide⟩).status =
      .cancelled := by
  have h := c8_expiry_sweep exNow exStore8
  exact ⟨((h.2.2.1 0 (by decide) (by decide)).1 (by decide)).1,
    (h.2.2.1 1 (by decide) (by decide)).2 (by decide),
    (h.2.2.2 0 (by decide) (by decide)).1
      ⟨by decide, exStaleTx, by decide, by decide, by decide⟩⟩

/-- C9: the refund amount falls back to the full transaction amount when the
`amount` argument is omitted or zero/falsy (`amount || transaction.amount`), so
the transaction transitions to `refunded` and the linked Order is cancelled;
an explicit nonzero amount strictly below the transaction amount yields
`partially_refunded` and leaves the orders untouched. -/
theorem c9_refund_fallback (st : Store) (t : Transaction) (oid : Nat) (a : ℚ)
    (hf : st.findTx t.txId = some t) (hlink : t.orderId = some oid)
    (ha0 : a ≠ 0) (halt : a < t.amount) :
    refundApply st t (some 0) = refundApply st t none ∧
    (∃ t', (refundApply st t none).1.findTx t.txId = some t' ∧
      t'.status = .refunded ∧ t'.refundAmt = some t.amount) ∧
    (refundApply st t none).1.orders =
      st.orders.map (fun o => if o.id = oid then { o with status := .cancelled } else o) ∧
    (∃ t', (refundApply st t (some a)).1.findTx t.txId = some t' ∧
      t'.status = .partiallyRefunded ∧ t'.refundAmt = some a) ∧
    (refundApply st t (some a)).1.orders = st.orders := by
  have hnone : refundApply st t none =
      ((st.setTx (addStatusUpdate { t with refundAmt := some t.amount } .refunded
          "Refund initiated")).mapOrder oid
          (fun o => { o with status := .cancelled }), .ok 0) := by
    simp only [refundApply, gt_iff_lt, lt_self_iff_false, if_false, eq_self_iff_true,
      if_true, hlink]
  have hsome : refundApply st t (some a) =
      (st.setTx (addStatusUpdate { t with refundAmt := some a } .partiallyRefunded
          "Refund initiated"), .ok 0) := by
    simp only [refundApply, gt_iff_lt, if_neg ha0, if_neg (lt_asymm halt),
      if_neg (ne_of_lt halt), hlink]
  refine ⟨by simp [refundApply], ?_, ?_, ?_, ?_⟩
  · refine ⟨addStatusUpdate { t with refundAmt := some t.amount } .refunded
      "Refund initiated", ?_, addStatusUpdate_status _ _ _, by
        rw [addStatusUpdate_refundAmt]⟩
    rw [hnone]
    rw [findTx_mapOrder]
    exact findTx_setTx _ _ _ _ hf (by rw [addStatusUpdate_txId])
  · rw [hnone]
    rfl
  · refine ⟨addStatusUpdate { t with refundAmt := some a } .partiallyRefunded
      "Refund initiated", ?_, addStatusUpdate_status _ _ _, by
        rw [addStatusUpdate_refundAmt]⟩
    rw [hsome]
    exact findTx_setTx _ _ _ _ hf (by rw [addStatusUpdate_txId])
  · rw [hsome]
    rfl

/-- C9, witness: refunding the concrete 500-INR paid transaction with the
amount omitted marks it `refunded` and cancels Order 5; an explicit 200-INR
refund marks it `partially_refunded` and leaves the orders untouched. -/
theorem c9_refund_witness :
    refundApply exStore9 exTxPaid (some 0) = refundApply exStore9 exTxPaid none ∧
    (∃ t', (refundApply exStore9 exTxPaid none).1.findTx exTxPaid.txId = some t' ∧
      t'.status = .refunded ∧ t'.refundAmt = some exTxPaid.amount) ∧
    (refundApply exStore9 exTxPaid none).1.orders =
      exStore9.orders.map
        (fun o => if o.id = 5 then { o with status := .cancelled } else o) ∧
    (∃ t', (refundApply exStore9 exTxPaid (some 200)).1.findTx exTxPaid.txId = some t' ∧
      t'.status = .partiallyRefunded ∧ t'.refundAmt = some 200) ∧
    (refundApply exStore9 exTxPaid (some 200)).1.orders = exStore9.orders :=
  c9_refund_fallback exStore9 exTxPaid 5 200 rfl rfl (by norm_num) (by norm_num [exTxPaid, exTx])

/-- C10: the reconciliation status map is total — `created ↦ initiated`,
`authorized ↦ authorized`, `captured ↦ success` (skipping the internal
`captured` state), `refunded ↦ refunded`, `failed ↦ failed`, and every other
string to `pending` — so a reconciled transaction is always placed at the
mapped status (or `failed` on a gateway 404) and never in `captured` or an
unrecognized status. -/
theorem c10_status_mapping (s : String) (t : Transaction) (p : PaymentDetails)
    (hs : s ∉ (["created", "authorized", "captured", "refunded", "failed"] :
      List String)) :
    mapRazorpayStatus "created" = .initiated ∧
    mapRazorpayStatus "authorized" = .authorized ∧
    mapRazorpayStatus "captured" = .success ∧
    mapRazorpayStatus "refunded" = .refunded ∧
    mapRazorpayStatus "failed" = .failed ∧
    mapRazorpayStatus s = .pending ∧
    (∀ s', mapRazorpayStatus s' ≠ .captured) ∧
    (reconcileApply t p).status = mapRazorpayStatus p.status ∧
    (reconcileApply t p).status ≠ .captured ∧
    (reconcile404 t).status = .failed := by
  have hmap : ∀ s', mapRazorpayStatus s' ≠ .captured := by
    intro s'
    unfold mapRazorpayStatus
    split_ifs <;> decide
  have hrec : (reconcileApply t p).status = mapRazorpayStatus p.status := by
    by_cases hc : mapRazorpayStatus p.status = t.status
    · simp only [reconcileApply]
      rw [if_neg (by simp [hc])]
      exact hc.symm
    · simp only [reconcileApply]
      rw [if_pos hc]
      rw [preSave_status]
      split <;> simp [addStatusUpdate_status]
  refine ⟨by decide, by decide, by decide, by decide, by decide, ?_, hmap, hrec,
    by rw [hrec]; exact hmap p.status, addStatusUpdate_status _ _ _⟩
  simp only [List.mem_cons, List.not_mem_nil, or_false, not_or] at hs
  obtain ⟨h1, h2, h3, h4, h5⟩ := hs
  simp [mapRazorpayStatus, h1, h2, h3, h4, h5]

/-- C10, witness: the mapping at the unrecognized status string "weird" and
the reconciliation of the concrete transaction against the captured gateway
detail. -/
theorem c10_status_witness :
    mapRazorpayStatus "created" = .initiated ∧
    mapRazorpayStatus "authorized" = .authorized ∧
    mapRazorpayStatus "captured" = .success ∧
    mapRazorpayStatus "refunded" = .refunded ∧
    mapRazorpayStatus "failed" = .failed ∧
    mapRazorpayStatus "weird" = .pending ∧
    (∀ s', mapRazorpayStatus s' ≠ .captured) ∧
    (reconcileApply exTx exDetailsWeird).status =
      mapRazorpayStatus exDetailsWeird.status ∧
    (reconcileApply exTx exDetailsWeird).status ≠ .captured ∧
    (reconcile404 exTx).status = .failed :=
  c10_status_mapping "weird" exTx exDetailsWeird (by decide)

end KShopB
